import Mathlib

/-
Verification development for the flux-interactive fluid simulation.

The GPU shader passes of src/constants.ts are embedded as functions on grid
fields: a texture of resolution N x N is a function from integer texel
coordinates to exact rational texel values.  Fragment shaders run once per
texel; the varying vUv at column i equals (i + 1/2) / N, and an offset of
one texelSize in a texture lookup lands exactly on the neighbouring texel
center.  Render targets are created with ClampToEdgeWrapping, so a lookup
outside the [0, 1] range returns the nearest edge texel, which the
embedding realises by clamping the texel index into [0, N - 1].
-/

/-- A single-component grid field (pressure, divergence). -/
abbrev PField := ℤ → ℤ → ℚ

/-- A two-component grid field (velocity, as read by divergence). -/
abbrev VField := ℤ → ℤ → ℚ × ℚ

/-- Texture coordinate of the texel center at index i on an N-texel axis,
as produced by the full screen quad for the fragment at that texel. -/
def texUV (N : ℕ) (i : ℤ) : ℚ := ((i : ℚ) + 1 / 2) / (N : ℚ)

/-- ClampToEdgeWrapping: texel index clamped into the valid range. -/
def clampIdx (N : ℕ) (i : ℤ) : ℤ := max 0 (min ((N : ℤ) - 1) i)

/-- texture2D lookup of a two-component field at texel (i, j). -/
def sampleV (N : ℕ) (V : VField) (i j : ℤ) : ℚ × ℚ :=
  V (clampIdx N i) (clampIdx N j)

/-- texture2D lookup of a one-component field at texel (i, j). -/
def sampleP (N : ℕ) (P : PField) (i j : ℤ) : ℚ :=
  P (clampIdx N i) (clampIdx N j)

/-- DIVERGENCE_SHADER of src/constants.ts, evaluated at texel (i, j).
L, R, T, B are the velocity lookups one texel away; the four conditionals
on vUv are transcribed literally from the shader source. -/
def divergenceShader (N : ℕ) (V : VField) (i j : ℤ) : ℚ :=
  let L := (sampleV N V (i - 1) j).1
  let R := (sampleV N V (i + 1) j).1
  let T := (sampleV N V i (j + 1)).2
  let B := (sampleV N V i (j - 1)).2
  let C := sampleV N V i j
  let L1 := if texUV N i < 0 then -C.1 else L
  let R1 := if texUV N i > 1 then -C.1 else R
  let T1 := if texUV N j > 1 then -C.2 else T
  let B1 := if texUV N j < 0 then -C.2 else B
  0.5 * (R1 - L1 + T1 - B1)

/-- The divergence pass described by the specification text of claim C2:
for a boundary cell the missing outside neighbour component is replaced by
the negation of the boundary cell component. -/
def divergenceClaimC2 (N : ℕ) (V : VField) (i j : ℤ) : ℚ :=
  let C := V i j
  let L := if i = 0 then -C.1 else (V (i - 1) j).1
  let R := if i = (N : ℤ) - 1 then -C.1 else (V (i + 1) j).1
  let T := if j = (N : ℤ) - 1 then -C.2 else (V i (j + 1)).2
  let B := if j = 0 then -C.2 else (V i (j - 1)).2
  0.5 * (R - L + T - B)

/-- A uniform rightward velocity field, used as a concrete input. -/
def constVelRight : VField := fun _ _ => (1, 0)

/-- PRESSURE_SHADER of src/constants.ts, evaluated at texel (i, j):
one Jacobi relaxation step reading pressure P and divergence D. -/
def pressureShader (N : ℕ) (P D : PField) (i j : ℤ) : ℚ :=
  let L := sampleP N P (i - 1) j
  let R := sampleP N P (i + 1) j
  let T := sampleP N P i (j + 1)
  let B := sampleP N P i (j - 1)
  let divr := sampleP N D i j
  (L + R + B + T - divr) * 0.25

/-- The two pressure render targets; b0 is index 0 of the array (the one
bound as uPressure input), b1 is index 1 (the render destination). -/
structure PressurePair where
  b0 : PField
  b1 : PField

/-- One render pass of the pressure loop body: the shader reads buffer b0
and writes the result into buffer b1. -/
def pressureWrite (N : ℕ) (D : PField) (pr : PressurePair) : PressurePair :=
  { pr with b1 := fun i j => pressureShader N pr.b0 D i j }

/-- The array reverse that follows each pressure render pass. -/
def reversePair (pr : PressurePair) : PressurePair :=
  { b0 := pr.b1, b1 := pr.b0 }

/-- One iteration of the pressure loop in useFrame: render into the
inactive buffer, then swap the two buffers. -/
def pressureIteration (N : ℕ) (D : PField) (pr : PressurePair) : PressurePair :=
  reversePair (pressureWrite N D pr)

/-- The pressure loop of useFrame, iterated n times. -/
def pressureLoop (N : ℕ) (D : PField) (pr : PressurePair) : ℕ → PressurePair
  | 0 => pr
  | n + 1 => pressureIteration N D (pressureLoop N D pr n)

/-- The pressure relaxation pass of a solver step: the useFrame loop runs
the iteration exactly 20 times. -/
def runPressurePass (N : ℕ) (D : PField) (pr : PressurePair) : PressurePair :=
  pressureLoop N D pr 20

/-- One Jacobi iteration as a map on single pressure fields. -/
def jacobiStep (N : ℕ) (D : PField) (P : PField) : PField :=
  fun i j => pressureShader N P D i j

/-
Splat pass.  SPLAT_SHADER works on the continuous uv domain of the render
pass; a texture is modelled as a function from uv coordinates to a three
component texel value (velocity stores the force in xy and the constant
1.0 written by the splat in z; density stores the colour).  Real numbers
replace the float texels, and Real.exp models the GLSL exp.
-/

/-- A uv coordinate. -/
abbrev Vec2 := ℝ × ℝ

/-- A three component texel or colour value. -/
abbrev Vec3 := ℝ × ℝ × ℝ

/-- A texture addressed by uv coordinates, as seen by the splat pass. -/
abbrev TexField := Vec2 → Vec3

/-- SPLAT_SHADER of src/constants.ts: the fragment at uv adds the Gaussian
falloff contribution of the splat to the value sampled from uTarget. -/
noncomputable def splatShader (aspect : ℝ) (color : Vec3) (point : Vec2)
    (radius : ℝ) (uTarget : TexField) : TexField :=
  fun uv =>
    let p1 := uv.1 - point.1
    let p2 := uv.2 - point.2
    let px := p1 * aspect
    let wgt := Real.exp (-(px * px + p2 * p2) / radius)
    let base := uTarget uv
    (base.1 + wgt * color.1, base.2.1 + wgt * color.2.1, base.2.2 + wgt * color.2.2)

/-- The four ping pong render targets of the solver that the splat
touches: velocity pair and density pair, index 0 active, index 1
inactive. -/
structure FluidBuffers where
  vel0 : TexField
  vel1 : TexField
  den0 : TexField
  den1 : TexField

/-- applySplat of src/components/Fluid.tsx: render the splat shader into
the inactive velocity buffer with colour uniform (dx, -dy, 1.0) reading
the active velocity buffer, reverse the velocity pair, then render the
same shader with the colour argument into the inactive density buffer
reading the active density buffer, and reverse the density pair.  The
point uniform is (x, 1.0 - y) and the aspect uniform is width / height. -/
noncomputable def applySplat (width height : ℝ) (s : FluidBuffers)
    (x y dx dy : ℝ) (color : Vec3) (radius : ℝ) : FluidBuffers :=
  let aspect := width / height
  let point : Vec2 := (x, 1.0 - y)
  let newVel := splatShader aspect (dx, -dy, 1.0) point radius s.vel0
  let newDen := splatShader aspect color point radius s.den0
  { vel0 := newVel, vel1 := s.vel0, den0 := newDen, den1 := s.den0 }

/-
Ambience agents.  Each agent chases a Lissajous style target recomputed
every frame from its fixed frequencies and phases.
-/

/-- One ambience agent: position plus fixed oscillation parameters, as
created in the ambienceAgents ref of Fluid.tsx. -/
structure AmbienceAgent where
  x : ℝ
  y : ℝ
  xf1 : ℝ
  xf2 : ℝ
  yf1 : ℝ
  yf2 : ℝ
  px1 : ℝ
  px2 : ℝ
  py1 : ℝ
  py2 : ℝ

/-- The horizontal pursuit target tx of an ambience agent at time t. -/
noncomputable def ambienceTargetX (t : ℝ) (a : AmbienceAgent) : ℝ :=
  0.5 + Real.sin (t * a.xf1 + a.px1) * 0.35 + Real.sin (t * a.xf2 + a.px2) * 0.20

/-- The vertical pursuit target ty of an ambience agent at time t. -/
noncomputable def ambienceTargetY (t : ℝ) (a : AmbienceAgent) : ℝ :=
  0.5 + Real.cos (t * a.yf1 + a.py1) * 0.35 + Real.cos (t * a.yf2 + a.py2) * 0.20

/-- The per frame position update of an ambience agent: smooth follow of
the target with factor 0.015. -/
noncomputable def ambienceStep (t : ℝ) (a : AmbienceAgent) : AmbienceAgent :=
  { a with
    x := a.x + (ambienceTargetX t a - a.x) * 0.015,
    y := a.y + (ambienceTargetY t a - a.y) * 0.015 }

/-- A concrete ambience agent used to instantiate theorems. -/
noncomputable def ambAgent0 : AmbienceAgent :=
  { x := 0.5, y := 0.5, xf1 := 0, xf2 := 0, yf1 := 0, yf2 := 0,
    px1 := 0, px2 := 0, py1 := 0, py2 := 0 }

/-
Signal source adapters.  A forcing event records the arguments of one
applySplat call; the pointer and music drivers of the useFrame callback
are embedded as functions from their state and environment inputs to the
list of forcing events emitted that frame plus the updated state.
-/

/-- The four visual modes of src/types.ts. -/
inductive FluidMode
  | flux
  | ignite
  | frost
  | mist
deriving DecidableEq

/-- One forcing event: the arguments of one applySplat call. -/
structure SplatEvent where
  x : ℝ
  y : ℝ
  dx : ℝ
  dy : ℝ
  color : Vec3
  radius : ℝ

/-- The interaction pointer record of Fluid.tsx. -/
structure PointerState where
  x : ℝ
  y : ℝ
  dx : ℝ
  dy : ℝ
  moved : Bool
  down : Bool

/-- The per mode colour switch of the pointer splat branch in useFrame;
rVal stands for the Math.random() draw of that frame. -/
noncomputable def pointerColor (mode : FluidMode) (time rVal : ℝ) : Vec3 :=
  match mode with
  | .ignite => (1.0, 0.1 + rVal * 0.3, 0.05)
  | .frost => (0.05, 0.5 + rVal * 0.4, 0.9 + rVal * 0.1)
  | .mist => (0.5 + rVal * 0.5, 0.5 + rVal * 0.5, 0.5 + rVal * 0.5)
  | .flux =>
      (Real.sin (time * 0.5) * 0.5 + 0.5, Real.sin (time * 0.5 + 2.0) * 0.5 + 0.5,
        Real.sin (time * 0.5 + 4.0) * 0.5 + 0.5)

/-- The pointer interaction branch of useFrame (section 2 of the frame
callback): when the pointer has moved, emit one splat at the normalised
pointer position with force delta times 5 and speed scaled radius, then
clear the moved flag and the stored delta; otherwise emit nothing. -/
noncomputable def pointerFrame (mode : FluidMode) (time rVal width height : ℝ)
    (p : PointerState) : List SplatEvent × PointerState :=
  if p.moved then
    ([{ x := p.x / width, y := p.y / height, dx := p.dx * 5.0, dy := p.dy * 5.0,
        color := pointerColor mode time rVal,
        radius := 0.001 + min (Real.sqrt (p.dx * p.dx + p.dy * p.dy)) 100 * 0.00005 }],
      { p with moved := false, dx := 0, dy := 0 })
  else ([], p)

/-- The music viz state of Fluid.tsx: wanderer position, the lastBass ref
and the movement accumulator. -/
structure MusicState where
  wx : ℝ
  wy : ℝ
  lastBass : ℚ
  movement : ℝ

/-- The events and new state produced by one music mode frame. -/
structure MusicFrameOut where
  trail : List SplatEvent
  burst : List SplatEvent
  state : MusicState

/-- Low band average: mean of the first 15 analyser bins. -/
def bassAvgOf (arr : List ℕ) : ℚ := (((arr.take 15).sum : ℕ) : ℚ) / 15

/-- Overall average: mean of all analyser bins. -/
def volAvgOf (arr : List ℕ) : ℚ := ((arr.sum : ℕ) : ℚ) / (arr.length : ℚ)

/-- Helper of THREE.Color.setHSL, transcribed from the three.js source. -/
noncomputable def hue2rgb (p q t0 : ℝ) : ℝ :=
  let t1 := if t0 < 0 then t0 + 1 else t0
  let t := if t1 > 1 then t1 - 1 else t1
  if t < 1 / 6 then p + (q - p) * 6 * t
  else if t < 1 / 2 then q
  else if t < 2 / 3 then p + (q - p) * 6 * (2 / 3 - t)
  else p

/-- THREE.Color.setHSL for a hue already reduced modulo 1. -/
noncomputable def setHSL (h0 s l : ℝ) : Vec3 :=
  let h := Int.fract h0
  let q := if l ≤ 0.5 then l * (1 + s) else l + s - l * s
  let p := 2 * l - q
  (hue2rgb p q (h + 1 / 3), hue2rgb p q h, hue2rgb p q (h - 1 / 3))

/-- The per mode colour switch of the music branch of useFrame. -/
noncomputable def musicColor (mode : FluidMode) (time : ℝ) : Vec3 :=
  match mode with
  | .ignite => (1.0, 0.2, 0.0)
  | .frost => (0.1, 0.6, 1.0)
  | .mist => (0.8, 0.8, 0.8)
  | .flux => setHSL (Int.fract (time * 0.5)) 0.8 0.5

/-- The music mode branch of useFrame: given the analyser snapshot (none
when getAudioData returned null), the frame time and delta, and the
stream of Math.random() draws used by a drop burst, produce the trailing
event, the drop burst events, and the updated music state.  When the
snapshot is none the whole branch is skipped. -/
noncomputable def musicFrame (mode : FluidMode) (time delta : ℝ) (rand : ℕ → ℝ)
    (data : Option (List ℕ)) (s : MusicState) : MusicFrameOut :=
  match data with
  | none => { trail := [], burst := [], state := s }
  | some arr =>
      let bassAvg := bassAvgOf arr
      let volAvg := volAvgOf arr
      let excitement : ℝ := ((volAvg : ℝ) / 255.0) ^ (2.5 : ℝ)
      let tVal := time * 1.2
      let chaos := Real.sin tVal * Real.cos (tVal * 2.7) + Real.sin (tVal * 1.5) * 0.5
      let sporadicFactor := 1.2 + (abs (chaos + 0.5)) ^ (2.5 : ℝ) * 4.0
      let wanderSpeed := (0.8 + excitement * 4.0) * sporadicFactor
      let movement := s.movement + delta * wanderSpeed
      let t := movement
      let tx := 0.5 + Real.sin (t * 0.5) * 0.4 + Real.sin (t * 1.42) * 0.2
      let ty := 0.5 + Real.cos (t * 0.36) * 0.4 + Real.cos (t * 1.73) * 0.2
      let wx := s.wx + (tx - s.wx) * 0.1
      let wy := s.wy + (ty - s.wy) * 0.1
      let color := musicColor mode time
      let trail :=
        if volAvg > 2 then
          [{ x := wx, y := wy, dx := (tx - wx) * 40.0 * excitement,
              dy := (ty - wy) * 40.0 * excitement, color := color,
              radius := 0.004 + excitement * 0.005 }]
        else []
      let burst :=
        if bassAvg > 110 ∧ bassAvg - s.lastBass > 20 then
          (List.range 30).map (fun i =>
            let angle := rand (5 * i + 2) * (2 * Real.pi)
            let speed := 20.0 + rand (5 * i + 3) * 60.0
            { x := rand (5 * i), y := rand (5 * i + 1),
              dx := Real.cos angle * speed, dy := Real.sin angle * speed,
              color := (4.0 : ℝ) • color,
              radius := 0.005 + rand (5 * i + 4) * 0.015 })
        else []
      { trail := trail, burst := burst,
        state := { wx := wx, wy := wy, lastBass := bassAvg, movement := movement } }

/-- A concrete pointer state: one recorded move of delta (10, 0) with the
pointer at pixel (400, 300). -/
def pointer0 : PointerState :=
  { x := 400, y := 300, dx := 10, dy := 0, moved := true, down := true }

/-- A concrete initial music state. -/
def music0 : MusicState := { wx := 0.5, wy := 0.5, lastBass := 0, movement := 0 }

/-- An arbitrary stream of Math.random() draws. -/
def rand0 : ℕ → ℝ := fun _ => 0

/-
Audio engine.  The AudioService class of src/services/audioService.ts is
embedded as a record of the WebAudio node parameters it owns.  A
setValueAtTime call stores the value field; a setTargetAtTime call stores
the target field together with the time constant of the ramp; the null
checks on ctx and the nodes are represented by the isInit flag set by
init, and the analyser plus dataArray pair by the hasAnalyser flag.
-/

/-- Oscillator waveforms used by the instrument table. -/
inductive Waveform
  | sine
  | triangle
  | sawtooth
  | square
deriving DecidableEq

/-- Biquad filter types used by the instrument table. -/
inductive FilterType
  | lowpass
  | highpass
  | bandpass
deriving DecidableEq

/-- One oscillator row of an instrument preset. -/
structure OscSpec where
  wave : Waveform
  freq : ℚ
  detune : ℚ
deriving DecidableEq

/-- The filter block of an instrument preset. -/
structure FilterSpec where
  ftype : FilterType
  baseFreq : ℚ
  modFreq : ℚ
  q : ℚ
deriving DecidableEq

/-- The gain block of an instrument preset. -/
structure GainSpec where
  base : ℚ
  mod : ℚ
  attack : ℚ
deriving DecidableEq

/-- The delay block of an instrument preset. -/
structure DelaySpec where
  time : ℚ
  feedback : ℚ
  mix : ℚ
deriving DecidableEq

/-- A full instrument preset. -/
structure InstrumentConfig where
  oscillators : List OscSpec
  filter : FilterSpec
  gain : GainSpec
  delay : DelaySpec
deriving DecidableEq

/-- The four instrument identifiers of src/types.ts. -/
inductive InstrumentType
  | flux
  | drone
  | spark
  | orbit
deriving DecidableEq

/-- The fixed INSTRUMENTS preset table of audioService.ts. -/
def INSTRUMENTS : InstrumentType → InstrumentConfig
  | .flux =>
      { oscillators :=
          [{ wave := .sine, freq := 261.63, detune := 0 },
            { wave := .sine, freq := 293.66, detune := 5 },
            { wave := .triangle, freq := 392.00, detune := -5 }],
        filter := { ftype := .lowpass, baseFreq := 200, modFreq := 2500, q := 0.5 },
        gain := { base := 0.05, mod := 0.35, attack := 0.3 },
        delay := { time := 0.4, feedback := 0.3, mix := 0.25 } }
  | .drone =>
      { oscillators :=
          [{ wave := .sawtooth, freq := 65.41, detune := 0 },
            { wave := .sawtooth, freq := 130.81, detune := 8 },
            { wave := .square, freq := 98.00, detune := -8 }],
        filter := { ftype := .lowpass, baseFreq := 80, modFreq := 800, q := 2.0 },
        gain := { base := 0.1, mod := 0.3, attack := 0.1 },
        delay := { time := 0.2, feedback := 0.4, mix := 0.1 } }
  | .spark =>
      { oscillators :=
          [{ wave := .sine, freq := 523.25, detune := 0 },
            { wave := .sine, freq := 659.25, detune := 0 },
            { wave := .sine, freq := 987.77, detune := 0 }],
        filter := { ftype := .highpass, baseFreq := 2000, modFreq := -1500, q := 1.0 },
        gain := { base := 0.0, mod := 0.2, attack := 0.05 },
        delay := { time := 0.25, feedback := 0.6, mix := 0.4 } }
  | .orbit =>
      { oscillators :=
          [{ wave := .sine, freq := 130.81, detune := 0 },
            { wave := .sine, freq := 261.63, detune := 2 },
            { wave := .sine, freq := 523.25, detune := -2 }],
        filter := { ftype := .bandpass, baseFreq := 300, modFreq := 1000, q := 5.0 },
        gain := { base := 0.05, mod := 0.4, attack := 0.5 },
        delay := { time := 0.6, feedback := 0.5, mix := 0.3 } }

/-- The mutable state of the AudioService instance. -/
structure AudioState where
  isInit : Bool
  hasAnalyser : Bool
  currentType : InstrumentType
  oscs : List OscSpec
  detuneTargets : List ℚ
  filterType : FilterType
  filterFreqValue : ℚ
  filterFreqTarget : ℚ
  filterQ : ℚ
  gainValue : ℚ
  gainTarget : ℚ
  gainRamp : ℚ
  delayTime : ℚ
  delayFeedback : ℚ
  delayMix : ℚ
  masterVolume : ℚ
  isMuted : Bool
  globalGainTarget : ℚ
deriving DecidableEq

namespace AudioService

/-- AudioService.setInstrument: before init only the remembered preset
identifier changes; on an initialised engine the old oscillators are
stopped and replaced by fresh ones built from the preset table, the
filter is reset to the preset base values, the main gain is reset to
silence (cancelling any scheduled ramp), and the delay parameters are set
from the preset. -/
def setInstrument (s : AudioState) (t : InstrumentType) : AudioState :=
  if s.isInit then
    let c := INSTRUMENTS t
    { s with
      currentType := t,
      oscs := c.oscillators,
      detuneTargets := c.oscillators.map (fun o => o.detune),
      filterType := c.filter.ftype,
      filterFreqValue := c.filter.baseFreq,
      filterFreqTarget := c.filter.baseFreq,
      filterQ := c.filter.q,
      gainValue := 0,
      gainTarget := 0,
      delayTime := c.delay.time,
      delayFeedback := c.delay.feedback,
      delayMix := c.delay.mix }
  else { s with currentType := t }

/-- AudioService.init: a no op when already initialised; otherwise the
audio graph is built (global gain at 0 when muted, else at the master
volume; analyser created) and the remembered preset is applied. -/
def init (s : AudioState) : AudioState :=
  if s.isInit then s
  else
    setInstrument
      { s with
        isInit := true,
        hasAnalyser := true,
        globalGainTarget := if s.isMuted then 0 else s.masterVolume }
      s.currentType

/-- AudioService.update: a no op before init; otherwise ramp the main
gain toward base + intensity * mod with the preset attack time constant
when the clamped intensity exceeds 0.001, and toward 0 with the fixed
0.5 s release time constant otherwise; ramp the filter frequency toward
the clamped target; and schedule the alternating detune wobble. -/
def update (s : AudioState) (velocity : ℚ) : AudioState :=
  if s.isInit then
    let config := INSTRUMENTS s.currentType
    let intensity := min velocity 1.2
    let targetGain :=
      if intensity > 0.001 then config.gain.base + intensity * config.gain.mod else 0
    let rampTime := if intensity > 0.001 then config.gain.attack else 0.5
    let targetFreq :=
      if intensity > 0.001 then config.filter.baseFreq + intensity * config.filter.modFreq
      else config.filter.baseFreq
    let safeFreq := max 20 (min 20000 targetFreq)
    let detuneAmount := intensity * 10
    { s with
      gainTarget := targetGain,
      gainRamp := rampTime,
      filterFreqTarget := safeFreq,
      detuneTargets :=
        (List.range s.oscs.length).map (fun i =>
          ((INSTRUMENTS s.currentType).oscillators.getD i
              { wave := Waveform.sine, freq := 0, detune := 0 }).detune +
            detuneAmount * (if i % 2 = 0 then 1 else -1)) }
  else s

/-- AudioService.setMute: record the flag, and on an initialised engine
ramp the global gain toward 0 when muting, else toward the master
volume. -/
def setMute (s : AudioState) (mute : Bool) : AudioState :=
  { s with
    isMuted := mute,
    globalGainTarget :=
      if s.isInit then (if mute then 0 else s.masterVolume) else s.globalGainTarget }

/-- AudioService.setMasterVolume: record the volume, and ramp the global
gain toward it only when the engine is initialised and not muted. -/
def setMasterVolume (s : AudioState) (vol : ℚ) : AudioState :=
  { s with
    masterVolume := vol,
    globalGainTarget :=
      if s.isInit && !s.isMuted then vol else s.globalGainTarget }

/-- AudioService.getAudioData: null when no analyser exists yet,
otherwise the current magnitude snapshot filled in by the analyser. -/
def getAudioData (s : AudioState) (freq : List ℕ) : Option (List ℕ) :=
  if s.hasAnalyser then some freq else none

end AudioService

/-- The field initialiser values of the AudioService class (before
init). -/
def audioDefault : AudioState :=
  { isInit := false, hasAnalyser := false, currentType := .flux, oscs := [],
    detuneTargets := [], filterType := .lowpass, filterFreqValue := 0,
    filterFreqTarget := 0, filterQ := 0, gainValue := 0, gainTarget := 0,
    gainRamp := 0, delayTime := 0, delayFeedback := 0, delayMix := 0,
    masterVolume := 0.5, isMuted := false, globalGainTarget := 0 }

/-- An initialised engine switched to the orbit preset. -/
def orbitReady : AudioState :=
  AudioService.setInstrument (AudioService.init audioDefault) InstrumentType.orbit

/-- An initialised engine that has been muted. -/
def mutedReady : AudioState :=
  AudioService.setMute (AudioService.init audioDefault) true

theorem pressureLoop_closed (N : ℕ) (D : PField) (pr : PressurePair) :
    ∀ n : ℕ, pressureLoop N D pr (n + 1) =
      { b0 := (jacobiStep N D)^[n + 1] pr.b0, b1 := (jacobiStep N D)^[n] pr.b0 } := by
  intro n
  induction n with
  | zero =>
      simp only [pressureLoop, pressureIteration, pressureWrite, reversePair,
        Function.iterate_one, Function.iterate_zero, id]
      rfl
  | succ m ih =>
      show pressureIteration N D (pressureLoop N D pr (m + 1)) = _
      rw [ih]
      simp only [pressureIteration, pressureWrite, reversePair]
      rw [Function.iterate_succ_apply' (jacobiStep N D) (m + 1) pr.b0]
      rfl

/-- Claim C1: in every solver step the pressure relaxation pass runs
exactly 20 Jacobi iterations; each iteration reads the active pressure
buffer and the single divergence buffer, writes (L + R + T + B - div) / 4
into the inactive pressure buffer, and the two buffers then swap roles, so
after the loop the active buffer holds the 20th Jacobi iterate (and the
inactive buffer the 19th). -/
theorem pressure_loop_c1 (N : ℕ) (D : PField) (pr : PressurePair) :
    (∀ P : PField, ∀ i j : ℤ, jacobiStep N D P i j =
      (sampleP N P (i - 1) j + sampleP N P (i + 1) j +
        sampleP N P i (j + 1) + sampleP N P i (j - 1) - sampleP N D i j) / 4) ∧
    (∀ q : PressurePair, pressureIteration N D q =
      { b0 := fun i j => pressureShader N q.b0 D i j, b1 := q.b0 }) ∧
    runPressurePass N D pr =
      { b0 := (jacobiStep N D)^[20] pr.b0, b1 := (jacobiStep N D)^[19] pr.b0 } := by
  refine ⟨?_, ?_, ?_⟩
  · intro P i j
    simp only [jacobiStep, pressureShader]
    ring
  · intro q
    simp [pressureIteration, pressureWrite, reversePair]
  · exact pressureLoop_closed N D pr 19

/-- Claim C2, evaluated on the code: on the 256-texel grid used by the
solver, with the uniform velocity field (1, 0), the divergence shader at
the left boundary texel (0, 0) returns 0, because the boundary
conditionals of the shader compare vUv against 0 and 1 and can never fire
(vUv is strictly inside (0, 1)), so the out of range lookup clamps to the
edge texel instead; the boundary rule stated by the claim would return 1
there.  The code therefore does not implement the claimed negation
boundary condition. -/
theorem divergence_boundary_c2 :
    divergenceShader 256 constVelRight 0 0 = 0 ∧
    divergenceClaimC2 256 constVelRight 0 0 = 1 ∧
    divergenceShader 256 constVelRight 0 0 ≠ divergenceClaimC2 256 constVelRight 0 0 := by
  have h1 : divergenceShader 256 constVelRight 0 0 = 0 := by
    norm_num [divergenceShader, sampleV, clampIdx, texUV, constVelRight]
  have h2 : divergenceClaimC2 256 constVelRight 0 0 = 1 := by
    norm_num [divergenceClaimC2, constVelRight]
  refine ⟨h1, h2, ?_⟩
  rw [h1, h2]
  norm_num

/-- Claim C3: for every forcing event, applySplat first writes into the
inactive velocity buffer the active velocity value plus the Gaussian
weighted contribution exp(-d2 / radius) scaled into (dx, -dy, 1.0), where
d2 is the aspect corrected squared distance of the fragment to the splat
point (x, 1 - y); the velocity pair then swaps.  It then repeats the same
additive Gaussian pass on the density pair with the colour as payload and
swaps that pair, using the same weight at every fragment. -/
theorem apply_splat_c3 (width height x y dx dy radius : ℝ) (color : Vec3)
    (s : FluidBuffers) (uv : Vec2) :
    (applySplat width height s x y dx dy color radius).vel0 uv =
      s.vel0 uv +
        Real.exp (-(((uv.1 - x) * (width / height)) ^ 2 + (uv.2 - (1 - y)) ^ 2) / radius) •
          (dx, -dy, (1 : ℝ)) ∧
    (applySplat width height s x y dx dy color radius).vel1 = s.vel0 ∧
    (applySplat width height s x y dx dy color radius).den0 uv =
      s.den0 uv +
        Real.exp (-(((uv.1 - x) * (width / height)) ^ 2 + (uv.2 - (1 - y)) ^ 2) / radius) •
          color ∧
    (applySplat width height s x y dx dy color radius).den1 = s.den0 := by
  have hw : ((uv.1 - x) * (width / height)) * ((uv.1 - x) * (width / height)) +
      (uv.2 - (1.0 - y)) * (uv.2 - (1.0 - y)) =
      ((uv.1 - x) * (width / height)) ^ 2 + (uv.2 - (1 - y)) ^ 2 := by
    ring
  obtain ⟨c1, c2, c3⟩ := color
  refine ⟨?_, rfl, ?_, rfl⟩ <;>
    simp [applySplat, splatShader, hw, Prod.smul_mk, smul_eq_mul,
      Prod.ext_iff, Prod.fst_add, Prod.snd_add] <;>
    norm_num

/-- Claim C9: the ambience target coordinates are 0.5 plus two sine or
cosine terms of amplitudes 0.35 and 0.20, so they always lie in
[-0.05, 1.05]; the per frame position update is the convex combination
p + 0.015 * (target - p), so an agent whose position lies in
[-0.05, 1.05] stays in [-0.05, 1.05] after every frame update, and the
initial position drawn from [0, 1) lies in that interval as well. -/
theorem ambience_bounds_c9 (t : ℝ) (a : AmbienceAgent)
    (hx : a.x ∈ Set.Icc (-0.05 : ℝ) 1.05) (hy : a.y ∈ Set.Icc (-0.05 : ℝ) 1.05) :
    ambienceTargetX t a ∈ Set.Icc (-0.05 : ℝ) 1.05 ∧
    ambienceTargetY t a ∈ Set.Icc (-0.05 : ℝ) 1.05 ∧
    (ambienceStep t a).x = a.x + 0.015 * (ambienceTargetX t a - a.x) ∧
    (ambienceStep t a).y = a.y + 0.015 * (ambienceTargetY t a - a.y) ∧
    (ambienceStep t a).x ∈ Set.Icc (-0.05 : ℝ) 1.05 ∧
    (ambienceStep t a).y ∈ Set.Icc (-0.05 : ℝ) 1.05 ∧
    (∀ u : ℝ, u ∈ Set.Ico (0 : ℝ) 1 → u ∈ Set.Icc (-0.05 : ℝ) 1.05) := by
  obtain ⟨hx0, hx1⟩ := hx
  obtain ⟨hy0, hy1⟩ := hy
  have hsx1 := Real.neg_one_le_sin (t * a.xf1 + a.px1)
  have hsx1' := Real.sin_le_one (t * a.xf1 + a.px1)
  have hsx2 := Real.neg_one_le_sin (t * a.xf2 + a.px2)
  have hsx2' := Real.sin_le_one (t * a.xf2 + a.px2)
  have hcy1 := Real.neg_one_le_cos (t * a.yf1 + a.py1)
  have hcy1' := Real.cos_le_one (t * a.yf1 + a.py1)
  have hcy2 := Real.neg_one_le_cos (t * a.yf2 + a.py2)
  have hcy2' := Real.cos_le_one (t * a.yf2 + a.py2)
  have htx : ambienceTargetX t a ∈ Set.Icc (-0.05 : ℝ) 1.05 := by
    constructor <;> simp only [ambienceTargetX] <;> nlinarith
  have hty : ambienceTargetY t a ∈ Set.Icc (-0.05 : ℝ) 1.05 := by
    constructor <;> simp only [ambienceTargetY] <;> nlinarith
  obtain ⟨htx0, htx1⟩ := htx
  obtain ⟨hty0, hty1⟩ := hty
  refine ⟨⟨htx0, htx1⟩, ⟨hty0, hty1⟩, by simp [ambienceStep]; ring, by simp [ambienceStep]; ring,
    ⟨?_, ?_⟩, ⟨?_, ?_⟩, ?_⟩
  · simp only [ambienceStep]; nlinarith
  · simp only [ambienceStep]; nlinarith
  · simp only [ambienceStep]; nlinarith
  · simp only [ambienceStep]; nlinarith
  · intro u hu
    obtain ⟨hu0, hu1⟩ := hu
    constructor <;> nlinarith

/-- Witness for claim C9 at the concrete agent ambAgent0 and time 0. -/
theorem ambience_bounds_c9_witness :
    (ambAgent0.x ∈ Set.Icc (-0.05 : ℝ) 1.05) ∧
    (ambAgent0.y ∈ Set.Icc (-0.05 : ℝ) 1.05) ∧
    ((ambienceStep 0 ambAgent0).x ∈ Set.Icc (-0.05 : ℝ) 1.05 ∧
      (ambienceStep 0 ambAgent0).y ∈ Set.Icc (-0.05 : ℝ) 1.05) :=
  ⟨by norm_num [ambAgent0], by norm_num [ambAgent0],
    (ambience_bounds_c9 0 ambAgent0 (by norm_num [ambAgent0]) (by norm_num [ambAgent0])).2.2.2.2.1,
    (ambience_bounds_c9 0 ambAgent0 (by norm_num [ambAgent0]) (by norm_num [ambAgent0])).2.2.2.2.2.1⟩

theorem musicFrame_lastBass (mode : FluidMode) (time delta : ℝ) (rand : ℕ → ℝ)
    (arr : List ℕ) (s : MusicState) :
    (musicFrame mode time delta rand (some arr) s).state.lastBass = bassAvgOf arr := by
  simp [musicFrame]

theorem musicFrame_burst_length (mode : FluidMode) (time delta : ℝ) (rand : ℕ → ℝ)
    (arr : List ℕ) (s : MusicState) :
    (musicFrame mode time delta rand (some arr) s).burst.length =
      if bassAvgOf arr > 110 ∧ bassAvgOf arr - s.lastBass > 20 then 30 else 0 := by
  by_cases hc : bassAvgOf arr > 110 ∧ bassAvgOf arr - s.lastBass > 20 <;>
    simp [musicFrame, hc]

theorem bassAvg_replicate (v : ℕ) : bassAvgOf (List.replicate 15 v) = (v : ℚ) := by
  have ht : (List.replicate 15 v).take 15 = List.replicate 15 v := by
    simp
  rw [bassAvgOf, ht, List.sum_replicate]
  ring_nf
  simp [mul_comm]

/-- Claim C4: for every pair of consecutive music frames with analyser
data, a drop burst of exactly 30 forcing events is emitted on the second
frame if and only if the second low band average exceeds 110 and it rose
by more than 20 over the first frames average (the burst list is always
of length 30 or empty); concretely, the low band average sequence
[50, 130] triggers one burst of 30 events on the second frame and none on
the first, while the sequence [100, 115] triggers none on either frame. -/
theorem music_drop_c4 :
    (∀ (mode : FluidMode) (t1 t2 d1 d2 : ℝ) (r1 r2 : ℕ → ℝ) (arr1 arr2 : List ℕ)
        (s : MusicState),
      ((musicFrame mode t2 d2 r2 (some arr2)
            (musicFrame mode t1 d1 r1 (some arr1) s).state).burst.length = 30 ↔
          (bassAvgOf arr2 > 110 ∧ bassAvgOf arr2 - bassAvgOf arr1 > 20)) ∧
      ((musicFrame mode t2 d2 r2 (some arr2)
            (musicFrame mode t1 d1 r1 (some arr1) s).state).burst.length = 30 ∨
        (musicFrame mode t2 d2 r2 (some arr2)
            (musicFrame mode t1 d1 r1 (some arr1) s).state).burst.length = 0)) ∧
    (musicFrame FluidMode.flux 0 0 rand0 (some (List.replicate 15 50)) music0).burst.length
        = 0 ∧
    (musicFrame FluidMode.flux 0 0 rand0 (some (List.replicate 15 130))
        (musicFrame FluidMode.flux 0 0 rand0 (some (List.replicate 15 50))
          music0).state).burst.length = 30 ∧
    (musicFrame FluidMode.flux 0 0 rand0 (some (List.replicate 15 100)) music0).burst.length
        = 0 ∧
    (musicFrame FluidMode.flux 0 0 rand0 (some (List.replicate 15 115))
        (musicFrame FluidMode.flux 0 0 rand0 (some (List.replicate 15 100))
          music0).state).burst.length = 0 := by
  refine ⟨?_, ?_, ?_, ?_, ?_⟩
  · intro mode t1 t2 d1 d2 r1 r2 arr1 arr2 s
    rw [musicFrame_burst_length, musicFrame_lastBass]
    by_cases hc : bassAvgOf arr2 > 110 ∧ bassAvgOf arr2 - bassAvgOf arr1 > 20 <;>
      simp [hc]
  · rw [musicFrame_burst_length, bassAvg_replicate]
    norm_num [music0]
  · rw [musicFrame_burst_length, musicFrame_lastBass, bassAvg_replicate, bassAvg_replicate]
    norm_num
  · rw [musicFrame_burst_length, bassAvg_replicate]
    norm_num [music0]
  · rw [musicFrame_burst_length, musicFrame_lastBass, bassAvg_replicate, bassAvg_replicate]
    norm_num

/-- Claim C5: in every frame in which the pointer has moved, the pointer
driver emits exactly one forcing event, at the normalised pointer
position, with force vector equal to the recorded delta times the fixed
gain 5, then clears the moved flag and zeroes the stored delta, so that a
following frame with no new movement emits zero pointer events;
concretely a move of delta (10, 0) with the pointer at pixel (400, 300)
of an 800 x 600 surface yields the single event at position (0.5, 0.5)
with force vector (50, 0). -/
theorem pointer_frame_c5 (mode : FluidMode) (time rVal width height : ℝ)
    (p : PointerState) (hm : p.moved = true) :
    (pointerFrame mode time rVal width height p).1 =
      [{ x := p.x / width, y := p.y / height, dx := p.dx * 5.0, dy := p.dy * 5.0,
          color := pointerColor mode time rVal,
          radius := 0.001 + min (Real.sqrt (p.dx * p.dx + p.dy * p.dy)) 100 * 0.00005 }] ∧
    (pointerFrame mode time rVal width height p).1.length = 1 ∧
    (pointerFrame mode time rVal width height p).2 =
      { p with moved := false, dx := 0, dy := 0 } ∧
    (∀ (mode2 : FluidMode) (t2 r2 : ℝ),
      (pointerFrame mode2 t2 r2 width height
        (pointerFrame mode time rVal width height p).2).1 = []) ∧
    (pointerFrame FluidMode.flux 0 0 800 600 pointer0).1 =
      [{ x := 0.5, y := 0.5, dx := 50, dy := 0,
          color := pointerColor FluidMode.flux 0 0, radius := 0.0015 }] := by
  have hs : Real.sqrt ((10 : ℝ) * 10 + 0 * 0) = 10 := by
    rw [show (10 : ℝ) * 10 + 0 * 0 = 10 ^ 2 by norm_num]
    exact Real.sqrt_sq (by norm_num)
  refine ⟨by simp [pointerFrame, hm], by simp [pointerFrame, hm], by simp [pointerFrame, hm],
    ?_, ?_⟩
  · intro mode2 t2 r2
    simp [pointerFrame, hm]
  · have hs100 : Real.sqrt (100 : ℝ) = 10 := by
      rw [show (100 : ℝ) = 10 ^ 2 by norm_num]
      exact Real.sqrt_sq (by norm_num)
    have hmin : min (Real.sqrt (100 : ℝ)) 100 = 10 := by
      rw [hs100]
      exact min_eq_left (by norm_num)
    norm_num [pointerFrame, pointer0, hmin, SplatEvent.mk.injEq]

/-- Witness for claim C5 at the concrete moved pointer pointer0. -/
theorem pointer_frame_c5_witness :
    pointer0.moved = true ∧
    (pointerFrame FluidMode.flux 0 0 800 600 pointer0).1.length = 1 :=
  ⟨rfl, (pointer_frame_c5 FluidMode.flux 0 0 800 600 pointer0 rfl).2.1⟩

/-- Claim C6: on an initialised engine, setInstrument A, then B, then A
leaves the active oscillator bank (waveforms, frequencies, detunes)
identical to the one produced by the first setInstrument A, which is the
oscillator list of the preset table; more generally the oscillator,
filter, gain and delay state after setInstrument A agree between any two
initialised prior states. -/
theorem set_instrument_roundtrip_c6 (A B : InstrumentType) (s s2 : AudioState)
    (h : s.isInit = true) (h2 : s2.isInit = true) :
    (AudioService.setInstrument (AudioService.setInstrument
        (AudioService.setInstrument s A) B) A).oscs =
      (AudioService.setInstrument s A).oscs ∧
    (AudioService.setInstrument s A).oscs = (INSTRUMENTS A).oscillators ∧
    (AudioService.setInstrument s2 A).oscs = (AudioService.setInstrument s A).oscs ∧
    (AudioService.setInstrument s2 A).filterType =
      (AudioService.setInstrument s A).filterType ∧
    (AudioService.setInstrument s2 A).filterFreqValue =
      (AudioService.setInstrument s A).filterFreqValue ∧
    (AudioService.setInstrument s2 A).filterQ = (AudioService.setInstrument s A).filterQ ∧
    (AudioService.setInstrument s2 A).gainValue =
      (AudioService.setInstrument s A).gainValue ∧
    (AudioService.setInstrument s2 A).delayTime =
      (AudioService.setInstrument s A).delayTime ∧
    (AudioService.setInstrument s2 A).delayFeedback =
      (AudioService.setInstrument s A).delayFeedback ∧
    (AudioService.setInstrument s2 A).delayMix =
      (AudioService.setInstrument s A).delayMix := by
  simp [AudioService.setInstrument, h, h2]

/-- Witness for claim C6 at the initialised default engine, with the
presets flux and drone. -/
theorem set_instrument_roundtrip_c6_witness :
    (AudioService.init audioDefault).isInit = true ∧
    (AudioService.setInstrument (AudioService.setInstrument
        (AudioService.setInstrument (AudioService.init audioDefault) InstrumentType.flux)
        InstrumentType.drone) InstrumentType.flux).oscs =
      (AudioService.setInstrument (AudioService.init audioDefault) InstrumentType.flux).oscs :=
  ⟨rfl,
    (set_instrument_roundtrip_c6 InstrumentType.flux InstrumentType.drone
      (AudioService.init audioDefault) (AudioService.init audioDefault) rfl rfl).1⟩

/-- Claim C7 as stated is false on the code: for the orbit preset the
release time constant used when ramping toward silence equals 0.5, which
is the orbit attack time constant, so the release is not strictly larger
than the attack there. -/
theorem update_release_c7_counter :
    (AudioService.update orbitReady 0).gainRamp = 0.5 ∧
    (INSTRUMENTS InstrumentType.orbit).gain.attack = 0.5 ∧
    ¬((AudioService.update orbitReady 0).gainRamp >
        (INSTRUMENTS InstrumentType.orbit).gain.attack) := by
  have hr : (AudioService.update orbitReady 0).gainRamp = 0.5 := by
    norm_num [AudioService.update, orbitReady, AudioService.setInstrument,
      AudioService.init, audioDefault, min_def]
  refine ⟨hr, rfl, ?_⟩
  rw [hr]
  norm_num [INSTRUMENTS]

/-- Claim C7 amended: on an initialised engine, update ramps the main
gain toward base + intensity * mod when the clamped intensity exceeds
the 0.001 activity threshold and toward 0 otherwise; the release time
constant used when ramping toward silence is the fixed 0.5, which is
greater than or equal to the attack time constant of every preset, and
strictly greater for every preset except orbit, whose attack is exactly
0.5. -/
theorem update_release_c7_amended (s : AudioState) (v : ℚ) (h : s.isInit = true) :
    (AudioService.update s v).gainTarget =
      (if min v 1.2 > 0.001
        then (INSTRUMENTS s.currentType).gain.base +
          min v 1.2 * (INSTRUMENTS s.currentType).gain.mod
        else 0) ∧
    (AudioService.update s v).gainRamp =
      (if min v 1.2 > 0.001 then (INSTRUMENTS s.currentType).gain.attack else 0.5) ∧
    (∀ t : InstrumentType, (INSTRUMENTS t).gain.attack ≤ 0.5) ∧
    (∀ t : InstrumentType, t ≠ InstrumentType.orbit → (INSTRUMENTS t).gain.attack < 0.5) ∧
    (INSTRUMENTS InstrumentType.orbit).gain.attack = 0.5 := by
  refine ⟨by simp [AudioService.update, h], by simp [AudioService.update, h], ?_, ?_, rfl⟩
  · intro t
    cases t <;> norm_num [INSTRUMENTS]
  · intro t ht
    cases t <;> norm_num [INSTRUMENTS] at ht ⊢

/-- Witness for the amended claim C7 at the initialised default
engine. -/
theorem update_release_c7_witness :
    (AudioService.init audioDefault).isInit = true ∧
    (INSTRUMENTS InstrumentType.orbit).gain.attack = 0.5 :=
  ⟨rfl, (update_release_c7_amended (AudioService.init audioDefault) 1 rfl).2.2.2.2⟩

/-- Claim C8: when no analyser exists yet the frequency snapshot
accessor returns none instead of failing, and a music frame with a none
snapshot emits no forcing events and leaves the whole music state
(wanderer position, last bass, movement accumulator) unchanged. -/
theorem no_analyser_c8 (s : AudioState) (freq : List ℕ) (h : s.hasAnalyser = false)
    (mode : FluidMode) (time delta : ℝ) (rand : ℕ → ℝ) (ms : MusicState) :
    AudioService.getAudioData s freq = none ∧
    musicFrame mode time delta rand none ms =
      { trail := [], burst := [], state := ms } ∧
    (musicFrame mode time delta rand none ms).state = ms := by
  refine ⟨by simp [AudioService.getAudioData, h], rfl, rfl⟩

/-- Witness for claim C8 at the uninitialised default engine. -/
theorem no_analyser_c8_witness :
    audioDefault.hasAnalyser = false ∧
    AudioService.getAudioData audioDefault [] = none :=
  ⟨rfl, (no_analyser_c8 audioDefault [] rfl FluidMode.flux 0 0 rand0 music0).1⟩

/-- Claim C10: calling setMasterVolume v while the engine is muted only
changes the field storing the volume (the scheduled global gain target,
in particular, stays what it was, namely 0 after a mute ramp), and a
following setMute false on an initialised engine ramps the global gain
toward the recorded v. -/
theorem master_volume_muted_c10 (s : AudioState) (v : ℚ)
    (hm : s.isMuted = true) (hi : s.isInit = true) :
    AudioService.setMasterVolume s v = { s with masterVolume := v } ∧
    (AudioService.setMasterVolume s v).masterVolume = v ∧
    (AudioService.setMasterVolume s v).globalGainTarget = s.globalGainTarget ∧
    (AudioService.setMute (AudioService.setMasterVolume s v) false).globalGainTarget = v := by
  have h1 : AudioService.setMasterVolume s v = { s with masterVolume := v } := by
    simp [AudioService.setMasterVolume, hm]
  refine ⟨h1, by rw [h1], by rw [h1], ?_⟩
  rw [h1]
  simp [AudioService.setMute, hi]

/-- Witness for claim C10 at a concrete muted initialised engine and
volume 0.7. -/
theorem master_volume_muted_c10_witness :
    mutedReady.isMuted = true ∧ mutedReady.isInit = true ∧
    (AudioService.setMute (AudioService.setMasterVolume mutedReady 0.7)
        false).globalGainTarget = 0.7 :=
  ⟨rfl, rfl, (master_volume_muted_c10 mutedReady 0.7 rfl rfl).2.2.2⟩
